import Mathlib

/-!
Shallow embedding of `src/tinydaw.py`: the channel trigger state machine and
metering engine (class `Channel`, lines 38-159, and the key-dispatch loop of
`main`, lines 366-370).  Python floats are modelled by `ℚ`; the pygame mixer
is modelled explicitly by `SinkState`; filesystem and audio-loading effects
are passed in as parameters.
-/

namespace TinyDaw

/-- The `TriggerMode` enum of the source, constructors in Python declaration
order (`ONESHOT`, `GATE`, `RETRIGGER`); `list(TriggerMode)` iterates in this
order, which is what `toggle_mode` indexes into. -/
inductive TriggerMode where
  | ONESHOT
  | GATE
  | RETRIGGER
deriving DecidableEq, BEq

/-- `list(TriggerMode)` in Python enum declaration order. -/
def TriggerMode.modesList : List TriggerMode :=
  [TriggerMode.ONESHOT, TriggerMode.GATE, TriggerMode.RETRIGGER]

/-- `MAX_CHANNELS = 8` (line 22). -/
def MAX_CHANNELS : Nat := 8

/-- `GATE_THRESHOLD = 0.5` seconds (line 23). -/
def GATE_THRESHOLD : ℚ := 1/2

/-- Model of the pygame mixer: `busy` lists the currently busy voices as
pairs `(voiceHandle, soundId)`; `nextHandle` is a fresh-handle counter;
`numChannels` is the mixer polyphony ceiling (`set_num_channels(32)` in
`main`). -/
structure SinkState where
  busy : List (Nat × Nat)
  nextHandle : Nat
  numChannels : Nat
deriving DecidableEq

/-- Model of `Sound.play()`: returns a fresh voice handle when a mixer
channel is free, `none` otherwise (pygame returns `None` when all channels
are busy). -/
def SinkState.play (s : SinkState) (snd : Nat) : Option Nat × SinkState :=
  if s.busy.length < s.numChannels then
    (some s.nextHandle,
     { s with busy := s.busy ++ [(s.nextHandle, snd)], nextHandle := s.nextHandle + 1 })
  else
    (none, s)

/-- Model of `Sound.stop()`: stops every voice currently playing this
sound. -/
def SinkState.stopSound (s : SinkState) (snd : Nat) : SinkState :=
  { s with busy := s.busy.filter fun p => p.2 ≠ snd }

/-- Model of `Channel.get_busy()` for a voice handle. -/
def SinkState.getBusy (s : SinkState) (h : Nat) : Bool :=
  s.busy.any fun p => p.1 == h

/-- The mixer as initialised in `main` (32 channels, no busy voice). -/
def sinkInit : SinkState := ⟨[], 0, 32⟩

/-- State of one pad, mirroring `Channel.__init__` (lines 39-53).  The
display character and the opaque sound resource are represented by their
code point / an id number. -/
structure Channel where
  index : Nat
  file_path : Option String
  assigned_key : Option Int
  assigned_char : Nat
  sound : Option Nat
  name : String
  trigger_mode : TriggerMode
  volume : ℚ
  last_triggered_time : ℚ
  is_gated_playing : Bool
  playing_channels : List Nat
  vu_level : ℚ
deriving DecidableEq

/-- `Channel(index)` constructor defaults: no file, no key, display char
`"-"` (code 45), no sound, name `"Empty"`, mode ONESHOT, volume 1.0,
no gate state, no voices, vu 0.0. -/
def Channel.init (i : Nat) : Channel :=
  { index := i
    file_path := none
    assigned_key := none
    assigned_char := 45
    sound := none
    name := "Empty"
    trigger_mode := TriggerMode.ONESHOT
    volume := 1
    last_triggered_time := 0
    is_gated_playing := false
    playing_channels := []
    vu_level := 0 }

/-- Model of `os.path.basename`: the final component after the last `/`. -/
def basename (p : String) : String :=
  (p.splitOn "/").getLastD ""

/-- `Channel.assign_file(path)` (lines 55-72).  `fsExists` models
`os.path.exists`; `audioEnabled` models the module flag `AUDIO_ENABLED`;
`load` models the `pygame.mixer.Sound(path)` constructor, returning a sound
id or the exception message.  The result pair is the `(bool, message)`
return of the source. -/
def Channel.assign_file (c : Channel) (fsExists : String → Bool)
    (audioEnabled : Bool) (load : String → Except String Nat)
    (path : String) : (Bool × String) × Channel :=
  if path = "" then
    ((false, "No path provided"), c)
  else if fsExists path = false then
    ((false, "File not found"), c)
  else if audioEnabled then
    match load path with
    | Except.error e => ((false, "Audio Error: " ++ e), c)
    | Except.ok snd =>
        ((true, "assigned"),
         { c with sound := some snd, file_path := some path, name := basename path })
  else
    ((true, "assigned"), { c with file_path := some path, name := basename path })

/-- ASCII uppercasing: lowercase letters map to uppercase, every other code
point below 128 is fixed.  This coincides with Python's `str.upper` on
ASCII code points; theorems only evaluate it there. -/
def asciiUpper (c : Nat) : Nat :=
  if 97 ≤ c ∧ c ≤ 122 then c - 32 else c

/-- Model of `chr(key).upper()` as used by `assign_key`: `chr` raises
`ValueError` exactly when `key` is outside `[0, 0x10FFFF]` (modelled by
`none`); otherwise the code point is uppercased.  The uppercase map is
exact for ASCII code points (the only ones the theorems evaluate); above
127 Python applies the full Unicode tables, which this model does not
reproduce. -/
def pyChrUpper (key : Int) : Option Nat :=
  if 0 ≤ key ∧ key ≤ 1114111 then some (asciiUpper key.toNat) else none

/-- `Channel.assign_key(key)` (lines 74-80): store the key code; display
char is `chr(key).upper()`, or `"?"` (code 63) when `chr` raises
`ValueError`. -/
def Channel.assign_key (c : Channel) (key : Int) : Channel :=
  { c with
      assigned_key := some key
      assigned_char := (pyChrUpper key).getD 63 }

/-- `Channel.toggle_mode()` (lines 82-92): clear a live gate flag, then
advance `trigger_mode` to the next entry of `list(TriggerMode)` modulo its
length. -/
def Channel.toggle_mode (c : Channel) : Channel :=
  let c1 := if c.is_gated_playing = true then { c with is_gated_playing := false } else c
  let modes := TriggerMode.modesList
  let current_idx := modes.indexOf c1.trigger_mode
  let next_idx := (current_idx + 1) % modes.length
  { c1 with trigger_mode := modes.getD next_idx TriggerMode.ONESHOT }

/-- `Channel.adjust_volume(delta)` (lines 94-98):
`volume = max(0.0, min(1.0, volume + delta))`. -/
def Channel.adjust_volume (c : Channel) (delta : ℚ) : Channel :=
  { c with volume := max 0 (min 1 (c.volume + delta)) }

/-- The trailing `if ch: self.playing_channels.append(ch)` of
`Channel.trigger` (lines 123-124): append the voice handle when `play`
returned one. -/
def Channel.appendVoice (c : Channel) : Option Nat → Channel
  | some h => { c with playing_channels := c.playing_channels ++ [h] }
  | none => c

/-- `Channel.trigger()` (lines 100-124).  `now` models `time.time()`.
ONESHOT: play and record the handle.  RETRIGGER: stop all voices of this
sound, then play and record the handle.  GATE: refresh
`last_triggered_time`; if not already gated, play (discarding the handle —
the source never records it) and raise the gate flag. -/
def Channel.trigger (c : Channel) (now : ℚ) (s : SinkState) : Channel × SinkState :=
  match c.sound with
  | none => (c, s)
  | some snd =>
    match c.trigger_mode with
    | TriggerMode.ONESHOT =>
        let r := s.play snd
        (c.appendVoice r.1, r.2)
    | TriggerMode.RETRIGGER =>
        let r := (s.stopSound snd).play snd
        (c.appendVoice r.1, r.2)
    | TriggerMode.GATE =>
        let c1 := { c with last_triggered_time := now }
        if c1.is_gated_playing = true then
          (c1, s)
        else
          let r := s.play snd
          ({ c1 with is_gated_playing := true }, r.2)

/-- Step 1 of `Channel.update` (lines 128-134): gate expiry.  If gated in
GATE mode and the threshold has elapsed, stop the sound (when loaded) and
clear the flag. -/
def Channel.gatePass (c : Channel) (now : ℚ) (s : SinkState) : Channel × SinkState :=
  if c.trigger_mode = TriggerMode.GATE ∧ c.is_gated_playing = true then
    if now - c.last_triggered_time > GATE_THRESHOLD then
      ({ c with is_gated_playing := false },
       match c.sound with
       | some snd => s.stopSound snd
       | none => s)
    else (c, s)
  else (c, s)

/-- Step 2 of `Channel.update` (lines 137-145): in GATE mode the playing
flag is the gate flag and `playing_channels` is left untouched; otherwise
finished voices are pruned and the flag is non-emptiness of the pruned
list. -/
def Channel.prunePass (c : Channel) (s : SinkState) : Bool × Channel :=
  if c.trigger_mode = TriggerMode.GATE then
    (c.is_gated_playing, c)
  else
    let pruned := c.playing_channels.filter fun h => s.getBusy h
    (!pruned.isEmpty, { c with playing_channels := pruned })

/-- The smoothing and snap of `Channel.update` (lines 153-159): fast attack
(coefficients 0.5/0.5) when the target exceeds the level, slow decay
(0.1/0.9) otherwise, then snap to exactly 0 below 0.01. -/
def vuFollow (target vu : ℚ) : ℚ :=
  let vu1 :=
    if target > vu then 1/2 * target + 1/2 * vu
    else 1/10 * target + 9/10 * vu
  if vu1 < 1/100 then 0 else vu1

/-- `Channel.update()` (lines 126-159).  `now` models `time.time()`;
`jitter` models the per-tick draw of `random.uniform(0.9, 1.0)` (only used
when playing).  The target level is `volume * jitter` when playing, else
0. -/
def Channel.update (c : Channel) (now jitter : ℚ) (s : SinkState) : Channel × SinkState :=
  let gs := c.gatePass now s
  let pp := gs.1.prunePass gs.2
  let target := if pp.1 then pp.2.volume * jitter else 0
  ({ pp.2 with vu_level := vuFollow target pp.2.vu_level }, gs.2)

/-- The key-dispatch loop of `main` (lines 366-370): every channel whose
`assigned_key` equals the pressed key is triggered, in index order, with
the sink state threaded through. -/
def dispatchKey (key : Int) (now : ℚ) : List Channel → SinkState → List Channel × SinkState
  | [], s => ([], s)
  | c :: rest, s =>
    let p := if c.assigned_key = some key then c.trigger now s else (c, s)
    let q := dispatchKey key now rest p.2
    (p.1 :: q.1, q.2)

/-- Run a sequence of ticks (pairs of `now` and `jitter`) through
`Channel.update`. -/
def runTicks (cs : Channel × SinkState) : List (ℚ × ℚ) → Channel × SinkState
  | [] => cs
  | (t, j) :: rest => runTicks (cs.1.update t j cs.2) rest

/-- The vu level after the first `n` ticks of the sequence `ts`. -/
def vuAfter (c : Channel) (s : SinkState) (ts : List (ℚ × ℚ)) (n : Nat) : ℚ :=
  (runTicks (c, s) (ts.take n)).1.vu_level

/-- The decay-and-snap rule of the specification for a non-playing channel:
`vuLevel := 0.1*target + 0.9*vuLevel` with target 0, snapped to exactly 0
below the epsilon 0.01. -/
def decayStep (v : ℚ) : ℚ :=
  if 9/10 * v < 1/100 then 0 else 9/10 * v

/-- Mode successor in the order the source actually cycles:
ONESHOT to GATE, GATE to RETRIGGER, RETRIGGER back to ONESHOT. -/
def cycleNext : TriggerMode → TriggerMode
  | TriggerMode.ONESHOT => TriggerMode.GATE
  | TriggerMode.GATE => TriggerMode.RETRIGGER
  | TriggerMode.RETRIGGER => TriggerMode.ONESHOT

/-- One mutating operation on a channel, for stating state invariants over
arbitrary operation sequences. -/
inductive Op where
  | adjust (delta : ℚ)
  | tick (now jitter : ℚ)
  | trig (now : ℚ)
  | toggle
  | key (k : Int)
  | file (fsExists : String → Bool) (audioEnabled : Bool)
      (load : String → Except String Nat) (path : String)

/-- Apply one operation to a channel/sink pair. -/
def runOp (cs : Channel × SinkState) : Op → Channel × SinkState
  | Op.adjust d => (cs.1.adjust_volume d, cs.2)
  | Op.tick t j => cs.1.update t j cs.2
  | Op.trig t => cs.1.trigger t cs.2
  | Op.toggle => (cs.1.toggle_mode, cs.2)
  | Op.key k => (cs.1.assign_key k, cs.2)
  | Op.file fs au ld p => ((cs.1.assign_file fs au ld p).2, cs.2)

/-- Apply a sequence of operations. -/
def runOps (cs : Channel × SinkState) : List Op → Channel × SinkState
  | [] => cs
  | op :: rest => runOps (runOp cs op) rest

/-- Validity of an operation: tick jitter is drawn from `[0.9, 1.0]`
(`random.uniform(0.9, 1.0)`); every other operation is unrestricted. -/
def Op.valid : Op → Prop
  | Op.tick _ j => 9/10 ≤ j ∧ j ≤ 1
  | _ => True

/-- Predicate on a busy-voice entry: plays the given sound. -/
def sndIs (snd : Nat) : Nat × Nat → Bool :=
  fun p => p.2 == snd

/-- Sample channel: sound loaded, RETRIGGER mode. -/
def retrigChan : Channel :=
  { Channel.init 0 with sound := some 0, trigger_mode := TriggerMode.RETRIGGER }

/-- Sample channel: sound loaded, GATE mode. -/
def gateChan : Channel :=
  { Channel.init 0 with sound := some 0, trigger_mode := TriggerMode.GATE }

/-- Sample channel: GATE mode with a stale voice handle left in
`playing_channels`. -/
def staleGateChan : Channel :=
  { Channel.init 0 with trigger_mode := TriggerMode.GATE, playing_channels := [5] }

/-- A mixer with no free voice at all. -/
def sinkFull : SinkState := ⟨[], 0, 0⟩

/-- Sample channel 0 with key `'a'` (97) assigned. -/
def dupA : Channel :=
  { Channel.init 0 with sound := some 0, assigned_key := some 97 }

/-- Sample channel 1 sharing the key `'a'` (97). -/
def dupB : Channel :=
  { Channel.init 1 with sound := some 1, assigned_key := some 97 }

/-- C1 counterexample: a fresh channel is in ONESHOT mode, and cycling its
trigger mode advances it to GATE — not to RETRIGGER, as the claim states
for the successor of ONESHOT. -/
theorem toggle_from_oneshot_goes_to_gate :
    (Channel.init 0).trigger_mode = TriggerMode.ONESHOT ∧
    ((Channel.init 0).toggle_mode).trigger_mode = TriggerMode.GATE ∧
    ((Channel.init 0).toggle_mode).trigger_mode ≠ TriggerMode.RETRIGGER := by
  decide

/-- C1 (amended): for every channel, `toggle_mode` advances the trigger
mode circularly in the enum declaration order ONESHOT to GATE, GATE to
RETRIGGER, RETRIGGER back to ONESHOT. -/
theorem toggle_mode_cycle_order (c : Channel) :
    (c.toggle_mode).trigger_mode = cycleNext c.trigger_mode := by
  obtain ⟨i, fp, ak, ac, snd, nm, tm, vol, ltt, gp, pc, vu⟩ := c
  cases tm <;> cases gp <;>
    (simp [Channel.toggle_mode, TriggerMode.modesList, cycleNext, List.indexOf]; decide)

/-- C4 counterexample: a GATE trigger on a non-gated channel with a loaded
sound raises the gate flag but records no voice handle — `activeVoices`
stays empty, contradicting the claim that it is non-empty afterwards. -/
theorem gate_trigger_no_handle_recorded :
    (gateChan.trigger 0 sinkInit).1.is_gated_playing = true ∧
    (gateChan.trigger 0 sinkInit).1.playing_channels = [] := by
  decide

/-- C4 (amended): a GATE trigger with a loaded sound always leaves
`playing_channels` untouched and refreshes `last_triggered_time`; when the
gate flag is down it requests a voice from the sink and raises the flag
(without recording the handle), and when the flag is already up it performs
no sink action at all. -/
theorem gate_trigger_behavior (c : Channel) (now : ℚ) (s : SinkState) (snd : Nat)
    (hs : c.sound = some snd) (hm : c.trigger_mode = TriggerMode.GATE) :
    (c.trigger now s).1.playing_channels = c.playing_channels ∧
    (c.trigger now s).1.last_triggered_time = now ∧
    (c.is_gated_playing = false →
      (c.trigger now s).1.is_gated_playing = true ∧ (c.trigger now s).2 = (s.play snd).2) ∧
    (c.is_gated_playing = true →
      (c.trigger now s).1 = { c with last_triggered_time := now } ∧ (c.trigger now s).2 = s) := by
  cases hg : c.is_gated_playing <;>
    simp [Channel.trigger, hs, hm, hg]

/-- C4 witness: concrete GATE trigger on `gateChan`. -/
theorem gate_trigger_behavior_w :
    (gateChan.trigger 0 sinkInit).1.is_gated_playing = true ∧
    (gateChan.trigger 0 sinkInit).2 = (sinkInit.play 0).2 :=
  (gate_trigger_behavior gateChan 0 sinkInit 0 rfl rfl).2.2.1 rfl

/-- C6 counterexample: with a mixer that has no free voice, a GATE trigger
still sets `is_gated_playing` to true even though no voice was started
(the sink's busy list stays empty), contradicting the claim. -/
theorem gate_flag_set_on_failed_play :
    (gateChan.trigger 0 sinkFull).1.is_gated_playing = true ∧
    (gateChan.trigger 0 sinkFull).2.busy = [] := by
  decide

/-- C6 (amended): a GATE trigger on a channel with a loaded sound always
leaves `is_gated_playing` true — the source never inspects the result of
the play request, so a failed play (no free voice) still raises the
flag. -/
theorem gate_trigger_sets_flag (c : Channel) (now : ℚ) (s : SinkState) (snd : Nat)
    (hs : c.sound = some snd) (hm : c.trigger_mode = TriggerMode.GATE) :
    (c.trigger now s).1.is_gated_playing = true := by
  cases hg : c.is_gated_playing <;>
    simp [Channel.trigger, hs, hm, hg]

/-- C6 witness: concrete GATE trigger against the voice-starved mixer. -/
theorem gate_trigger_sets_flag_w :
    (gateChan.trigger 0 sinkFull).1.is_gated_playing = true :=
  gate_trigger_sets_flag gateChan 0 sinkFull 0 rfl rfl

/-- C9 counterexample: the empty path does not resolve to an existing
resource, yet `assign_file` reports `"No path provided"` — not the
`"File not found"` failure the claim promises for every non-resolving
path. -/
theorem assign_file_empty_path_msg :
    ((Channel.init 0).assign_file (fun _ => false) false (fun _ => Except.error "e") "").1
      ≠ (false, "File not found") := by
  decide

/-- C9 (amended): for every non-empty path that does not exist,
`assign_file` fails with the `"File not found"` message and leaves the
channel completely unchanged; the empty path instead fails with
`"No path provided"`, also leaving the channel unchanged. -/
theorem assign_file_file_not_found (c : Channel) (fsExists : String → Bool)
    (audioEnabled : Bool) (load : String → Except String Nat) (path : String)
    (hne : path ≠ "") (hex : fsExists path = false) :
    c.assign_file fsExists audioEnabled load path = ((false, "File not found"), c) := by
  simp [Channel.assign_file, hne, hex]

/-- C9 witness: concrete missing path. -/
theorem assign_file_file_not_found_w :
    (Channel.init 0).assign_file (fun _ => false) false (fun _ => Except.error "e") "missing.wav"
      = ((false, "File not found"), Channel.init 0) :=
  assign_file_file_not_found (Channel.init 0) (fun _ => false) false
    (fun _ => Except.error "e") "missing.wav" (by decide) rfl

/-- C10 counterexample: key code 10 (newline) is outside the printable
ASCII range, yet `assign_key` stores code point 10 as the display
character, not the placeholder `"?"` (63) the claim promises. -/
theorem assign_key_newline_not_question :
    ((Channel.init 0).assign_key 10).assigned_char = 10 ∧
    ((Channel.init 0).assign_key 10).assigned_char ≠ 63 := by
  decide

/-- C10 (amended): `assign_key` always stores the key code; the display
character is the uppercased character for printable-ASCII key codes, and
the placeholder `"?"` (63) appears exactly when `chr` raises `ValueError`
— key codes below 0 or above 0x10FFFF — not for every code outside the
printable range. -/
theorem assign_key_display (c : Channel) (key : Int) :
    (c.assign_key key).assigned_key = some key ∧
    (32 ≤ key → key ≤ 126 → (c.assign_key key).assigned_char = asciiUpper key.toNat) ∧
    (key < 0 ∨ 1114111 < key → (c.assign_key key).assigned_char = 63) := by
  refine ⟨rfl, ?_, ?_⟩
  · intro h1 h2
    have hv : 0 ≤ key ∧ key ≤ 1114111 := ⟨by omega, by omega⟩
    simp [Channel.assign_key, pyChrUpper, hv]
  · intro h
    have hv : ¬ (0 ≤ key ∧ key ≤ 1114111) := by omega
    simp [Channel.assign_key, pyChrUpper, hv]

/-- C10 witness: key `'a'` (97) maps to `'A'` (65). -/
theorem assign_key_display_w :
    ((Channel.init 0).assign_key 97).assigned_char = asciiUpper (Int.toNat 97) :=
  (assign_key_display (Channel.init 0) 97).2.1 (by decide) (by decide)

/-- After stopping a sound, no busy entry for that sound remains, so the
count of its voices is zero. -/
theorem countP_stopSound (s : SinkState) (snd : Nat) :
    (s.stopSound snd).busy.countP (sndIs snd) = 0 := by
  rw [List.countP_eq_zero]
  intro p hp
  simp only [SinkState.stopSound, List.mem_filter, decide_eq_true_eq] at hp
  simp [sndIs, hp.2]

/-- C3 counterexample: two RETRIGGER triggers in a row, before any update,
leave two voice handles in `activeVoices` — the set is not cleared on
retrigger, contradicting the claim that it holds at most one handle at
every moment. -/
theorem retrigger_list_two_handles :
    ((retrigChan.trigger 0 sinkInit).1.trigger (1/100) (retrigChan.trigger 0 sinkInit).2).1.playing_channels
        = [0, 1] ∧
    ¬ (((retrigChan.trigger 0 sinkInit).1.trigger (1/100) (retrigChan.trigger 0 sinkInit).2).1.playing_channels.length
        ≤ 1) := by
  decide

/-- C3 (amended): a RETRIGGER trigger stops every sink voice of the
channel's sound and starts at most one new one, so the sink is monophonic
for that sound — but `activeVoices` is only appended to, never cleared, so
stale stopped handles remain listed until the next update prunes them. -/
theorem retrigger_sink_monophonic (c : Channel) (now : ℚ) (s : SinkState) (snd : Nat)
    (hs : c.sound = some snd) (hm : c.trigger_mode = TriggerMode.RETRIGGER) :
    (c.trigger now s).2.busy.countP (sndIs snd) ≤ 1 ∧
    ((c.trigger now s).1.playing_channels = c.playing_channels ∨
      ∃ h, (c.trigger now s).1.playing_channels = c.playing_channels ++ [h]) := by
  have hstop := countP_stopSound s snd
  simp only [Channel.trigger, hs, hm]
  by_cases hcap : (s.stopSound snd).busy.length < (s.stopSound snd).numChannels
  · constructor
    · simp [SinkState.play, hcap, List.countP_append, hstop, sndIs]
    · right
      exact ⟨(s.stopSound snd).nextHandle, by simp [SinkState.play, hcap, Channel.appendVoice]⟩
  · constructor
    · simp [SinkState.play, hcap, hstop]
    · left
      simp [SinkState.play, hcap, Channel.appendVoice]

/-- C3 witness: concrete RETRIGGER trigger on `retrigChan`. -/
theorem retrigger_sink_monophonic_w :
    (retrigChan.trigger 0 sinkInit).2.busy.countP (sndIs 0) ≤ 1 :=
  (retrigger_sink_monophonic retrigChan 0 sinkInit 0 rfl rfl).1

/-- C2 counterexample: two channels share the key `'a'`; after one
dispatch the second channel has also fired (its `activeVoices` is no
longer empty), contradicting the claim that only the lowest-index match
fires. -/
theorem dispatch_second_duplicate_fires :
    dupA.assigned_key = dupB.assigned_key ∧
    dupB.playing_channels = [] ∧
    ((dispatchKey 97 0 [dupA, dupB] sinkInit).1.getD 1 (Channel.init 0)).playing_channels ≠ [] := by
  decide

/-- C2 (amended): `dispatchKey` scans channels in index order and triggers
every channel whose `assignedKey` equals the key code — not only the
first match — threading the sink state through; channels whose key
differs are left unchanged. -/
theorem dispatch_triggers_every_match (key : Int) (now : ℚ) :
    ∀ (chs : List Channel) (s : SinkState) (i : Nat),
      ((chs.getD i (Channel.init 0)).assigned_key ≠ some key →
        (dispatchKey key now chs s).1.getD i (Channel.init 0) = chs.getD i (Channel.init 0)) ∧
      ((chs.getD i (Channel.init 0)).assigned_key = some key →
        (dispatchKey key now chs s).1.getD i (Channel.init 0) =
          ((chs.getD i (Channel.init 0)).trigger now
            (dispatchKey key now (List.take i chs) s).2).1) := by
  intro chs
  induction chs with
  | nil =>
      intro s i
      constructor
      · intro _
        simp [dispatchKey]
      · intro hmatch
        simp [Channel.init] at hmatch
  | cons c rest ih =>
      intro s i
      by_cases hc : c.assigned_key = some key
      · cases i with
        | zero => simp [dispatchKey, hc]
        | succ j => simpa [dispatchKey, hc] using ih (c.trigger now s).2 j
      · cases i with
        | zero => simp [dispatchKey, hc]
        | succ j => simpa [dispatchKey, hc] using ih s j

/-- C2 witness: the second duplicate channel is triggered with the sink
state left by the first one. -/
theorem dispatch_triggers_every_match_w :
    (dispatchKey 97 0 [dupA, dupB] sinkInit).1.getD 1 (Channel.init 0) =
      (([dupA, dupB].getD 1 (Channel.init 0)).trigger 0
        (dispatchKey 97 0 (List.take 1 [dupA, dupB]) sinkInit).2).1 :=
  (dispatch_triggers_every_match 97 0 [dupA, dupB] sinkInit 1).2 (by decide)

/-- C5 counterexample: a GATE-mode channel holding a stale handle that the
sink reports as finished keeps it through an update pass — pruning is
skipped in GATE mode, contradicting the claim that it happens regardless
of mode. -/
theorem gate_update_no_prune :
    sinkInit.getBusy 5 = false ∧
    (staleGateChan.update 0 1 sinkInit).1.playing_channels = [5] := by
  decide

/-- C5 (amended): an update pass prunes every finished handle from
`activeVoices` — and leaves the sink untouched — only for channels whose
mode is not GATE; for GATE-mode channels `activeVoices` is left exactly
as it was, finished handles included. -/
theorem update_prune_non_gate (c : Channel) (now jitter : ℚ) (s : SinkState) :
    (c.trigger_mode ≠ TriggerMode.GATE →
      (∀ h ∈ (c.update now jitter s).1.playing_channels, s.getBusy h = true) ∧
      (c.update now jitter s).2 = s) ∧
    (c.trigger_mode = TriggerMode.GATE →
      (c.update now jitter s).1.playing_channels = c.playing_channels) := by
  constructor
  · intro hm
    constructor
    · intro h hmem
      simp [Channel.update, Channel.gatePass, Channel.prunePass, hm, List.mem_filter] at hmem
      exact hmem.2
    · simp [Channel.update, Channel.gatePass, hm]
  · intro hm
    by_cases hg : c.is_gated_playing = true
    · by_cases ht : now - c.last_triggered_time > GATE_THRESHOLD
      · simp [Channel.update, Channel.gatePass, Channel.prunePass, hm, hg, ht]
      · simp [Channel.update, Channel.gatePass, Channel.prunePass, hm, hg, ht]
    · simp [Channel.update, Channel.gatePass, Channel.prunePass, hm, hg]

/-- C5 witness: a non-GATE update against the fresh mixer leaves the sink
unchanged. -/
theorem update_prune_non_gate_w :
    ((Channel.init 0).update 0 1 sinkInit).2 = sinkInit :=
  ((update_prune_non_gate (Channel.init 0) 0 1 sinkInit).1 (by decide)).2

/-- With target 0 and a nonnegative level, the smoothing-and-snap step is
exactly the decay-and-snap rule. -/
theorem vuFollow_zero (v : ℚ) (hv : 0 ≤ v) : vuFollow 0 v = decayStep v := by
  unfold vuFollow decayStep
  rw [if_neg (by linarith : ¬ (0:ℚ) > v)]
  have h : (1:ℚ)/10 * 0 + 9/10 * v = 9/10 * v := by ring
  rw [h]

/-- The decay-and-snap step keeps the level nonnegative. -/
theorem decayStep_nonneg (v : ℚ) (_hv : 0 ≤ v) : 0 ≤ decayStep v := by
  unfold decayStep
  split_ifs <;> linarith

/-- The decay-and-snap step never increases a nonnegative level. -/
theorem decayStep_le (v : ℚ) (hv : 0 ≤ v) : decayStep v ≤ v := by
  unfold decayStep
  split_ifs <;> linarith

/-- The decay-and-snap step contracts by the factor 0.9. -/
theorem decayStep_le_mul (v : ℚ) (hv : 0 ≤ v) : decayStep v ≤ 9/10 * v := by
  unfold decayStep
  split_ifs <;> linarith

/-- A nonzero decay result sits at or above the snap epsilon. -/
theorem decayStep_ne_zero_ge (v : ℚ) (h : decayStep v ≠ 0) : 1/100 ≤ decayStep v := by
  unfold decayStep at h ⊢
  split_ifs at h ⊢ with hc
  · exact absurd rfl h
  · linarith [not_lt.mp hc]

/-- Iterating the decay step preserves nonnegativity. -/
theorem decayStep_iter_nonneg (v : ℚ) (hv : 0 ≤ v) :
    ∀ n, 0 ≤ decayStep^[n] v := by
  intro n
  induction n with
  | zero => simpa using hv
  | succ k ih =>
      rw [Function.iterate_succ_apply']
      exact decayStep_nonneg _ ih

/-- The iterated decay is bounded by the geometric envelope. -/
theorem decayStep_iter_le_pow (v : ℚ) (hv : 0 ≤ v) :
    ∀ n, decayStep^[n] v ≤ (9/10) ^ n * v := by
  intro n
  induction n with
  | zero => simp
  | succ k ih =>
      rw [Function.iterate_succ_apply']
      calc decayStep (decayStep^[k] v)
          ≤ 9/10 * decayStep^[k] v := decayStep_le_mul _ (decayStep_iter_nonneg v hv k)
        _ ≤ 9/10 * ((9/10) ^ k * v) := by
              have h910 : (0:ℚ) ≤ 9/10 := by norm_num
              exact mul_le_mul_of_nonneg_left ih h910
        _ = (9/10) ^ (k + 1) * v := by ring

/-- Zero is a fixed point of the decay step. -/
theorem decayStep_zero : decayStep 0 = 0 := by
  norm_num [decayStep]

/-- Starting from any level in the unit interval, 45 or more decay steps
reach exactly 0. -/
theorem decayStep_iter_eventually_zero (v : ℚ) (h0 : 0 ≤ v) (h1 : v ≤ 1) :
    ∀ n, 45 ≤ n → decayStep^[n] v = 0 := by
  have h45 : decayStep^[45] v = 0 := by
    by_contra hne
    have hge : 1/100 ≤ decayStep^[45] v := by
      have : decayStep^[45] v = decayStep (decayStep^[44] v) := by
        rw [Function.iterate_succ_apply']
      rw [this] at hne ⊢
      exact decayStep_ne_zero_ge _ hne
    have hle : decayStep^[45] v ≤ (9/10 : ℚ) ^ 45 * v := decayStep_iter_le_pow v h0 45
    have hsmall : (9/10 : ℚ) ^ 45 * v ≤ (9/10 : ℚ) ^ 45 := by
      have : (0:ℚ) ≤ (9/10 : ℚ) ^ 45 := by positivity
      nlinarith
    have : (9/10 : ℚ) ^ 45 < 1/100 := by norm_num
    linarith
  intro n hn
  obtain ⟨k, rfl⟩ : ∃ k, n = k + 45 := ⟨n - 45, by omega⟩
  rw [Function.iterate_add_apply, h45]
  exact Function.iterate_fixed decayStep_zero k

/-- One update of an idle channel (no voices, gate flag down) only applies
the decay-and-snap rule to the vu level and leaves the sink alone. -/
theorem update_idle (c : Channel) (t j : ℚ) (s : SinkState)
    (hpc : c.playing_channels = []) (hg : c.is_gated_playing = false)
    (hv : 0 ≤ c.vu_level) :
    c.update t j s = ({ c with vu_level := decayStep c.vu_level }, s) := by
  obtain ⟨i, fp, ak, ac, snd, nm, tm, vol, ltt, gp, pc, vu⟩ := c
  simp only at hpc hg hv
  subst hpc hg
  cases tm <;>
    simp [Channel.update, Channel.gatePass, Channel.prunePass, vuFollow_zero _ hv]

/-- Running any tick sequence over an idle channel iterates the
decay-and-snap rule and changes nothing else. -/
theorem runTicks_idle (s : SinkState) :
    ∀ (ts : List (ℚ × ℚ)) (c : Channel), c.playing_channels = [] →
      c.is_gated_playing = false → 0 ≤ c.vu_level →
      runTicks (c, s) ts = ({ c with vu_level := decayStep^[ts.length] c.vu_level }, s) := by
  intro ts
  induction ts with
  | nil =>
      intro c hpc hg hv
      simp [runTicks]
  | cons tj rest ih =>
      intro c hpc hg hv
      obtain ⟨t, j⟩ := tj
      have hstep := update_idle c t j s hpc hg hv
      have hih := ih { c with vu_level := decayStep c.vu_level }
        (by simpa using hpc) (by simpa using hg) (decayStep_nonneg _ hv)
      simp only [runTicks, hstep, hih, List.length_cons, Function.iterate_succ_apply]

/-- The vu level after `n` ticks of an idle channel is the `min n len`-fold
decay of the starting level. -/
theorem vuAfter_eq (c : Channel) (s : SinkState) (ts : List (ℚ × ℚ))
    (hpc : c.playing_channels = []) (hg : c.is_gated_playing = false)
    (hv : 0 ≤ c.vu_level) (n : Nat) :
    vuAfter c s ts n = decayStep^[min n ts.length] c.vu_level := by
  unfold vuAfter
  rw [runTicks_idle s (ts.take n) c hpc hg hv]
  simp [List.length_take]

/-- C7: for a channel that is not playing (no active voices, gate flag
down) and any tick sequence with no triggers, the vu level follows the
decay-and-snap rule on every tick, never increases, and is exactly 0 from
the 45th tick on — in particular it snaps to exactly 0 on the first tick
where the decayed value falls below 0.01 and stays 0 afterwards. -/
theorem vu_decay_settles (c : Channel) (s : SinkState) (ts : List (ℚ × ℚ))
    (hpc : c.playing_channels = []) (hg : c.is_gated_playing = false)
    (h0 : 0 ≤ c.vu_level) (h1 : c.vu_level ≤ 1) :
    (∀ n, n < ts.length → vuAfter c s ts (n + 1) = decayStep (vuAfter c s ts n)) ∧
    (∀ n, vuAfter c s ts (n + 1) ≤ vuAfter c s ts n) ∧
    (∀ n, 45 ≤ n → n ≤ ts.length → vuAfter c s ts n = 0) := by
  have key : ∀ n, vuAfter c s ts n = decayStep^[min n ts.length] c.vu_level :=
    vuAfter_eq c s ts hpc hg h0
  refine ⟨?_, ?_, ?_⟩
  · intro n hn
    rw [key, key, Nat.min_eq_left (Nat.succ_le_of_lt hn), Nat.min_eq_left (Nat.le_of_lt hn),
      Function.iterate_succ_apply']
  · intro n
    rcases Nat.lt_or_ge n ts.length with h | h
    · rw [key, key, Nat.min_eq_left (Nat.succ_le_of_lt h), Nat.min_eq_left (Nat.le_of_lt h),
        Function.iterate_succ_apply']
      exact decayStep_le _ (decayStep_iter_nonneg _ h0 n)
    · rw [key, key, Nat.min_eq_right h, Nat.min_eq_right (Nat.le_succ_of_le h)]
  · intro n h45 hlen
    rw [key, Nat.min_eq_left hlen]
    exact decayStep_iter_eventually_zero c.vu_level h0 h1 n h45

/-- C7 witness: one concrete tick on a fresh (idle) channel. -/
theorem vu_decay_settles_w :
    vuAfter (Channel.init 0) sinkInit [((0:ℚ), (1:ℚ))] 1 =
      decayStep (vuAfter (Channel.init 0) sinkInit [((0:ℚ), (1:ℚ))] 0) :=
  (vu_decay_settles (Channel.init 0) sinkInit [((0:ℚ), (1:ℚ))] rfl rfl
    (by norm_num [Channel.init]) (by norm_num [Channel.init])).1 0 (by norm_num)

/-- The smoothing-and-snap step maps the unit square into the unit
interval. -/
theorem vuFollow_mem_unit (t v : ℚ) (_ht0 : 0 ≤ t) (ht1 : t ≤ 1)
    (hv0 : 0 ≤ v) (hv1 : v ≤ 1) : 0 ≤ vuFollow t v ∧ vuFollow t v ≤ 1 := by
  simp only [vuFollow]
  split_ifs <;> constructor <;> linarith

/-- `adjust_volume` clamps the volume into the unit interval and leaves
the vu level alone. -/
theorem adjust_volume_fields (c : Channel) (d : ℚ) :
    0 ≤ (c.adjust_volume d).volume ∧ (c.adjust_volume d).volume ≤ 1 ∧
    (c.adjust_volume d).vu_level = c.vu_level :=
  ⟨le_max_left 0 _, max_le (by norm_num) (min_le_left 1 _), rfl⟩

/-- `trigger` never touches the volume or the vu level. -/
theorem trigger_fields (c : Channel) (now : ℚ) (s : SinkState) :
    (c.trigger now s).1.volume = c.volume ∧ (c.trigger now s).1.vu_level = c.vu_level := by
  obtain ⟨i, fp, ak, ac, snd, nm, tm, vol, ltt, gp, pc, vu⟩ := c
  cases snd with
  | none => exact ⟨rfl, rfl⟩
  | some sd =>
      cases tm <;> cases gp <;>
        simp [Channel.trigger, Channel.appendVoice, SinkState.play] <;>
        split_ifs <;> simp [Channel.appendVoice]

/-- `toggle_mode` never touches the volume or the vu level. -/
theorem toggle_mode_fields (c : Channel) :
    (c.toggle_mode).volume = c.volume ∧ (c.toggle_mode).vu_level = c.vu_level := by
  unfold Channel.toggle_mode
  split_ifs <;> exact ⟨rfl, rfl⟩

/-- `assign_key` never touches the volume or the vu level. -/
theorem assign_key_fields (c : Channel) (k : Int) :
    (c.assign_key k).volume = c.volume ∧ (c.assign_key k).vu_level = c.vu_level :=
  ⟨rfl, rfl⟩

/-- `assign_file` never touches the volume or the vu level. -/
theorem assign_file_fields (c : Channel) (fsE : String → Bool) (au : Bool)
    (load : String → Except String Nat) (p : String) :
    (c.assign_file fsE au load p).2.volume = c.volume ∧
    (c.assign_file fsE au load p).2.vu_level = c.vu_level := by
  unfold Channel.assign_file
  split_ifs <;>
    first
    | exact ⟨rfl, rfl⟩
    | (rcases load p with e | sd <;> exact ⟨rfl, rfl⟩)

/-- The gate-expiry pass never touches the volume or the vu level. -/
theorem gatePass_fields (c : Channel) (t : ℚ) (s : SinkState) :
    (c.gatePass t s).1.volume = c.volume ∧ (c.gatePass t s).1.vu_level = c.vu_level := by
  unfold Channel.gatePass
  split_ifs <;> exact ⟨rfl, rfl⟩

/-- The pruning pass never touches the volume or the vu level. -/
theorem prunePass_fields (c : Channel) (s : SinkState) :
    (c.prunePass s).2.volume = c.volume ∧ (c.prunePass s).2.vu_level = c.vu_level := by
  unfold Channel.prunePass
  split_ifs <;> exact ⟨rfl, rfl⟩

/-- One update keeps the volume and keeps the vu level inside the unit
interval, provided the jitter is drawn from `[0.9, 1.0]`. -/
theorem update_fields (c : Channel) (t j : ℚ) (s : SinkState)
    (hv0 : 0 ≤ c.volume) (hv1 : c.volume ≤ 1) (hu0 : 0 ≤ c.vu_level) (hu1 : c.vu_level ≤ 1)
    (hj0 : 9/10 ≤ j) (hj1 : j ≤ 1) :
    (c.update t j s).1.volume = c.volume ∧
    0 ≤ (c.update t j s).1.vu_level ∧ (c.update t j s).1.vu_level ≤ 1 := by
  have hgs := gatePass_fields c t s
  have hpp := prunePass_fields (c.gatePass t s).1 (c.gatePass t s).2
  have hvol : ((c.gatePass t s).1.prunePass (c.gatePass t s).2).2.volume = c.volume := by
    rw [hpp.1, hgs.1]
  have hvu : ((c.gatePass t s).1.prunePass (c.gatePass t s).2).2.vu_level = c.vu_level := by
    rw [hpp.2, hgs.2]
  have hupdate : (c.update t j s).1 =
      { ((c.gatePass t s).1.prunePass (c.gatePass t s).2).2 with
        vu_level := vuFollow
          (if ((c.gatePass t s).1.prunePass (c.gatePass t s).2).1 then
            ((c.gatePass t s).1.prunePass (c.gatePass t s).2).2.volume * j
          else 0)
          ((c.gatePass t s).1.prunePass (c.gatePass t s).2).2.vu_level } := rfl
  have htarget0 : 0 ≤ (if ((c.gatePass t s).1.prunePass (c.gatePass t s).2).1 then
      ((c.gatePass t s).1.prunePass (c.gatePass t s).2).2.volume * j else 0) := by
    split_ifs
    · rw [hvol]
      exact mul_nonneg hv0 (by linarith)
    · linarith
  have htarget1 : (if ((c.gatePass t s).1.prunePass (c.gatePass t s).2).1 then
      ((c.gatePass t s).1.prunePass (c.gatePass t s).2).2.volume * j else 0) ≤ 1 := by
    split_ifs
    · rw [hvol]
      nlinarith
    · norm_num
  have hvua : 0 ≤ ((c.gatePass t s).1.prunePass (c.gatePass t s).2).2.vu_level := by
    rw [hvu]; exact hu0
  have hvub : ((c.gatePass t s).1.prunePass (c.gatePass t s).2).2.vu_level ≤ 1 := by
    rw [hvu]; exact hu1
  have hb := vuFollow_mem_unit _ _ htarget0 htarget1 hvua hvub
  rw [hupdate]
  exact ⟨hvol, hb.1, hb.2⟩

/-- C8: over every sequence of operations whose ticks use jitter in
`[0.9, 1.0]`, both the volume and the vu level stay inside the unit
interval in every reachable state. -/
theorem volume_vu_bounded (ops : List Op) :
    ∀ (c : Channel) (s : SinkState), (∀ op ∈ ops, op.valid) →
      0 ≤ c.volume → c.volume ≤ 1 → 0 ≤ c.vu_level → c.vu_level ≤ 1 →
      0 ≤ (runOps (c, s) ops).1.volume ∧ (runOps (c, s) ops).1.volume ≤ 1 ∧
      0 ≤ (runOps (c, s) ops).1.vu_level ∧ (runOps (c, s) ops).1.vu_level ≤ 1 := by
  induction ops with
  | nil =>
      intro c s _ h1 h2 h3 h4
      exact ⟨h1, h2, h3, h4⟩
  | cons op rest ih =>
      intro c s hvalid h1 h2 h3 h4
      have hop : op.valid := hvalid op (List.mem_cons_self op rest)
      have hrest : ∀ o ∈ rest, o.valid := fun o ho => hvalid o (List.mem_cons_of_mem op ho)
      show 0 ≤ (runOps (runOp (c, s) op) rest).1.volume ∧ _
      cases op with
      | adjust d =>
          have hf := adjust_volume_fields c d
          exact ih (c.adjust_volume d) s hrest hf.1 hf.2.1
            (by rw [hf.2.2]; exact h3) (by rw [hf.2.2]; exact h4)
      | tick t j =>
          obtain ⟨hj0, hj1⟩ := hop
          have hf := update_fields c t j s h1 h2 h3 h4 hj0 hj1
          exact ih (c.update t j s).1 (c.update t j s).2 hrest
            (by rw [hf.1]; exact h1) (by rw [hf.1]; exact h2) hf.2.1 hf.2.2
      | trig t =>
          have hf := trigger_fields c t s
          exact ih (c.trigger t s).1 (c.trigger t s).2 hrest
            (by rw [hf.1]; exact h1) (by rw [hf.1]; exact h2)
            (by rw [hf.2]; exact h3) (by rw [hf.2]; exact h4)
      | toggle =>
          have hf := toggle_mode_fields c
          exact ih c.toggle_mode s hrest
            (by rw [hf.1]; exact h1) (by rw [hf.1]; exact h2)
            (by rw [hf.2]; exact h3) (by rw [hf.2]; exact h4)
      | key k =>
          have hf := assign_key_fields c k
          exact ih (c.assign_key k) s hrest
            (by rw [hf.1]; exact h1) (by rw [hf.1]; exact h2)
            (by rw [hf.2]; exact h3) (by rw [hf.2]; exact h4)
      | file fs au ld p =>
          have hf := assign_file_fields c fs au ld p
          exact ih (c.assign_file fs au ld p).2 s hrest
            (by rw [hf.1]; exact h1) (by rw [hf.1]; exact h2)
            (by rw [hf.2]; exact h3) (by rw [hf.2]; exact h4)

/-- C8 witness: one concrete adjust-volume call starting from a fresh
channel. -/
theorem volume_vu_bounded_w :
    0 ≤ (runOps (Channel.init 0, sinkInit) [Op.adjust (1/2)]).1.volume ∧
    (runOps (Channel.init 0, sinkInit) [Op.adjust (1/2)]).1.volume ≤ 1 ∧
    0 ≤ (runOps (Channel.init 0, sinkInit) [Op.adjust (1/2)]).1.vu_level ∧
    (runOps (Channel.init 0, sinkInit) [Op.adjust (1/2)]).1.vu_level ≤ 1 :=
  volume_vu_bounded [Op.adjust (1/2)] (Channel.init 0) sinkInit
    (by intro op hop; rcases List.mem_singleton.mp hop with rfl; trivial)
    (by norm_num [Channel.init]) (by norm_num [Channel.init])
    (by norm_num [Channel.init]) (by norm_num [Channel.init])

end TinyDaw
